import Mathlib

/-!
Verification of the request/response binding engine of `first_shot/main.py`.

Schemas, route handlers, stored data and declared constraints are embedded
directly from the source. The generic binding/validation/serialization
machinery (constraint checking, violation aggregation, response-model
projection, tagged-union resolution, the exception mapper, the background
task queue drain) is framework behaviour that the source only configures;
those definitions are modelled from the spec and say so in their doc
comments. Floats are modelled as rationals: every numeric literal involved
(0, 10.5, 42.0, ...) is exactly representable in binary floating point and
only strict/non-strict order comparisons on such literals occur.
-/

namespace FirstShot

/-- The five-plus request locations a field can be bound from (spec §3, FieldSpec). -/
inductive Loc where
  | path
  | query
  | header
  | cookie
  | body
  | form
  | file
deriving DecidableEq, Repr

/-- JSON-like wire values exchanged between binder, handlers and resolver. -/
inductive Val where
  | vnull
  | vstr (s : String)
  | vint (n : Int)
  | vrat (q : ℚ)
  | vbool (b : Bool)
  | varr (xs : List Val)
  | vobj (fields : List (String × Val))

/-- One violation record of a ValidationFailure:
`(fieldLocation, fieldName, violatedConstraint, offendingValue)` (spec §3). -/
structure Violation where
  loc : Loc
  field : String
  cname : String
  offending : Val

/-- Numeric range constraints a FieldSpec may declare (spec §3). -/
structure NumBounds where
  gt : Option ℚ
  ge : Option ℚ
  lt : Option ℚ
  le : Option ℚ

/-- Modelled from the spec: the framework's strict `gt` bound check
(spec §4.1, "Floating-point bounds use strict `<`/`>` semantics"). -/
def checkGt (loc : Loc) (fname : String) : Option ℚ → ℚ → List Violation
  | none, _ => []
  | some t, v => if t < v then [] else [⟨loc, fname, "gt", Val.vrat v⟩]

/-- Modelled from the spec: the framework's non-strict `ge` bound check. -/
def checkGe (loc : Loc) (fname : String) : Option ℚ → ℚ → List Violation
  | none, _ => []
  | some t, v => if t ≤ v then [] else [⟨loc, fname, "ge", Val.vrat v⟩]

/-- Modelled from the spec: the framework's strict `lt` bound check. -/
def checkLt (loc : Loc) (fname : String) : Option ℚ → ℚ → List Violation
  | none, _ => []
  | some t, v => if v < t then [] else [⟨loc, fname, "lt", Val.vrat v⟩]

/-- Modelled from the spec: the framework's non-strict `le` bound check. -/
def checkLe (loc : Loc) (fname : String) : Option ℚ → ℚ → List Violation
  | none, _ => []
  | some t, v => if v ≤ t then [] else [⟨loc, fname, "le", Val.vrat v⟩]

/-- Modelled from the spec: numeric constraint checking collects every
violated bound for a field, in declaration order gt, ge, lt, le (spec §4.1,
"All violated constraints for a field are collected, not just the first"). -/
def checkNum (loc : Loc) (fname : String) (b : NumBounds) (v : ℚ) : List Violation :=
  checkGt loc fname b.gt v ++ checkGe loc fname b.ge v
    ++ checkLt loc fname b.lt v ++ checkLe loc fname b.le v

/-- Modelled from the spec: sequence length check against
minLength/maxLength (spec §4.1). -/
def checkLen (loc : Loc) (fname : String) (minL maxL : Option Nat) (len : Nat) : List Violation :=
  (match minL with
    | none => []
    | some m => if m ≤ len then [] else [⟨loc, fname, "min_length", Val.vint len⟩])
  ++ (match maxL with
    | none => []
    | some m => if len ≤ m then [] else [⟨loc, fname, "max_length", Val.vint len⟩])

/-- A serialized HTTP response: status, extra headers, body. -/
structure ResponseOut where
  status : Nat
  headers : List (String × String)
  body : Val

/-- Errors a handler or the pipeline can raise: `HTTPException` with status,
detail and extra headers; the source's `UnicornException`; a Python
`KeyError` from unguarded dict indexing. -/
inductive PyError where
  | http (status : Nat) (detail : String) (headers : List (String × String))
  | unicorn (name : String)
  | keyError (k : String)

/-- Modelled from the spec: the Exception Mapper (spec §4.5). `HTTPException`
and `UnicornException` have registered mappers (the latter's body is the
source's `unicorn_exception_handler`); `KeyError` is of no registered kind and
surfaces as a generic server error with status 500. -/
def mapException : PyError → ResponseOut
  | .http status detail headers => ⟨status, headers, Val.vobj [("detail", Val.vstr detail)]⟩
  | .unicorn name =>
      ⟨418, [], Val.vobj
        [("message", Val.vstr ("Oops! " ++ name ++ " did something. There goes a rainbow..."))]⟩
  | .keyError _ => ⟨500, [], Val.vobj [("detail", Val.vstr "Internal Server Error")]⟩

/-! ### Schemas declared in the source (`class Image`, `BaseItem`, `Item`, ...) -/

/-- `class Image(BaseModel): url: HttpUrl; name: str`. -/
structure Image where
  url : String
  name : String
deriving DecidableEq, Repr

/-- `class Item(BaseItem)`: `description` and `type` inherited from `BaseItem`
(both optional, `description` has `max_length=300`), then `name: str`,
`price: float = Field(gt=0)`, and optional `tax`, `tags: set[str]`,
`images: list[Image]`. Field order is parent fields first, as pydantic merges
inherited fields. -/
structure Item where
  description : Option String
  type : Option String
  name : String
  price : ℚ
  tax : Option ℚ
  tags : Option (List String)
  images : Option (List Image)
deriving DecidableEq, Repr

/-- `class Offer(BaseModel): name: str; description: str | None = None;
price: float; items: list[Item]`. -/
structure Offer where
  name : String
  description : Option String
  price : ℚ
  items : List Item
deriving DecidableEq, Repr

/-- `class BaseUser(BaseModel): username: str; full_name: str | None = None`,
extended by `class UserIn(BaseUser): password: str`. -/
structure UserIn where
  username : String
  full_name : Option String
  password : String
deriving DecidableEq, Repr

/-! ### Serialization (Response Resolver side) -/

/-- Optional string to wire value: `None` serializes as JSON null. -/
def optStrV : Option String → Val
  | none => Val.vnull
  | some s => Val.vstr s

/-- Optional number to wire value. -/
def optRatV : Option ℚ → Val
  | none => Val.vnull
  | some q => Val.vrat q

/-- Serialize an `Image` over its schema fields. -/
def serializeImage (i : Image) : Val :=
  Val.vobj [("url", Val.vstr i.url), ("name", Val.vstr i.name)]

/-- Optional string set to wire value. -/
def tagsV : Option (List String) → Val
  | none => Val.vnull
  | some ts => Val.varr (ts.map Val.vstr)

/-- Optional image list to wire value. -/
def imagesV : Option (List Image) → Val
  | none => Val.vnull
  | some xs => Val.varr (xs.map serializeImage)

/-- The named wire fields of a serialized `Item`, in declaration order. -/
def itemFields (it : Item) : List (String × Val) :=
  [("description", optStrV it.description),
   ("type", optStrV it.type),
   ("name", Val.vstr it.name),
   ("price", Val.vrat it.price),
   ("tax", optRatV it.tax),
   ("tags", tagsV it.tags),
   ("images", imagesV it.images)]

/-- Serialize an `Item` over its schema fields. -/
def serializeItem (it : Item) : Val :=
  Val.vobj (itemFields it)

/-- The named wire fields of a serialized `Offer`, in declaration order. -/
def offerFields (o : Offer) : List (String × Val) :=
  [("name", Val.vstr o.name),
   ("description", optStrV o.description),
   ("price", Val.vrat o.price),
   ("items", Val.varr (o.items.map serializeItem))]

/-- Serialize an `Offer` over its schema fields. -/
def serializeOffer (o : Offer) : Val :=
  Val.vobj (offerFields o)

/-! ### Violation-aggregating parsing (Coercion/Validation Engine side) -/

/-- Modelled from the spec: combine two field results, aggregating the
violation lists of both when both fail (spec §3, ValidationFailure is "never
partial ... fail-slow, not fail-fast on first field"). -/
def pz {α β : Type} :
    Except (List Violation) α → Except (List Violation) β → Except (List Violation) (α × β)
  | .ok a, .ok b => .ok (a, b)
  | .error e1, .error e2 => .error (e1 ++ e2)
  | .error e1, .ok _ => .error e1
  | .ok _, .error e2 => .error e2

/-- Modelled from the spec: validate every element of a JSON array,
aggregating violations across elements. -/
def parseListAgg {α : Type} (f : Val → Except (List Violation) α) :
    List Val → Except (List Violation) (List α)
  | [] => .ok []
  | v :: vs => (pz (f v) (parseListAgg f vs)).map fun p => p.1 :: p.2

/-- Modelled from the spec: a required string field; missing emits `missing`,
non-string emits `type_error`, then the optional maxLength check runs. -/
def parseStrField (loc : Loc) (fname : String) (maxL : Option Nat)
    (fields : List (String × Val)) : Except (List Violation) String :=
  match fields.lookup fname with
  | none => .error [⟨loc, fname, "missing", Val.vnull⟩]
  | some (Val.vstr s) =>
      match checkLen loc fname none maxL s.length with
      | [] => .ok s
      | vs => .error vs
  | some v => .error [⟨loc, fname, "type_error", v⟩]

/-- Modelled from the spec: an optional string field with default `None`;
missing or null substitutes the default, a present string is length-checked. -/
def parseOptStrField (loc : Loc) (fname : String) (maxL : Option Nat)
    (fields : List (String × Val)) : Except (List Violation) (Option String) :=
  match fields.lookup fname with
  | none => .ok none
  | some Val.vnull => .ok none
  | some (Val.vstr s) =>
      match checkLen loc fname none maxL s.length with
      | [] => .ok (some s)
      | vs => .error vs
  | some v => .error [⟨loc, fname, "type_error", v⟩]

/-- Modelled from the spec: a required numeric field; JSON ints coerce to
float, then the declared range bounds run, collecting all violated bounds. -/
def parseNumField (loc : Loc) (fname : String) (b : NumBounds)
    (fields : List (String × Val)) : Except (List Violation) ℚ :=
  match fields.lookup fname with
  | none => .error [⟨loc, fname, "missing", Val.vnull⟩]
  | some (Val.vrat q) =>
      match checkNum loc fname b q with
      | [] => .ok q
      | vs => .error vs
  | some (Val.vint n) =>
      match checkNum loc fname b (n : ℚ) with
      | [] => .ok (n : ℚ)
      | vs => .error vs
  | some v => .error [⟨loc, fname, "type_error", v⟩]

/-- Modelled from the spec: an optional numeric field with default `None`. -/
def parseOptNumField (loc : Loc) (fname : String) (b : NumBounds)
    (fields : List (String × Val)) : Except (List Violation) (Option ℚ) :=
  match fields.lookup fname with
  | none => .ok none
  | some Val.vnull => .ok none
  | some (Val.vrat q) =>
      match checkNum loc fname b q with
      | [] => .ok (some q)
      | vs => .error vs
  | some (Val.vint n) =>
      match checkNum loc fname b (n : ℚ) with
      | [] => .ok (some (n : ℚ))
      | vs => .error vs
  | some v => .error [⟨loc, fname, "type_error", v⟩]

/-- Modelled from the spec: one element of a `set[str]` or `list[str]`. -/
def parseStrElem (loc : Loc) (fname : String) : Val → Except (List Violation) String
  | Val.vstr s => .ok s
  | v => .error [⟨loc, fname, "type_error", v⟩]

/-- Modelled from the spec: an optional `set[str]` field; the set
de-duplicates its elements (spec §4.1, "set de-duplicates, drops order"). -/
def parseOptStrSetField (loc : Loc) (fname : String)
    (fields : List (String × Val)) : Except (List Violation) (Option (List String)) :=
  match fields.lookup fname with
  | none => .ok none
  | some Val.vnull => .ok none
  | some (Val.varr xs) =>
      (parseListAgg (parseStrElem loc fname) xs).map fun ss => some ss.dedup
  | some v => .error [⟨loc, fname, "type_error", v⟩]

/-- Modelled from the spec: validate a JSON object against the `Image`
schema (nested-schema recursion of spec §4.1). -/
def parseImage (v : Val) : Except (List Violation) Image :=
  match v with
  | Val.vobj fields =>
      match pz (parseStrField .body "url" none fields) (parseStrField .body "name" none fields) with
      | .ok p => .ok ⟨p.1, p.2⟩
      | .error e => .error e
  | _ => .error [⟨.body, "image", "type_error", v⟩]

/-- Modelled from the spec: an optional `list[Image]` field. -/
def parseOptImagesField (loc : Loc) (fname : String)
    (fields : List (String × Val)) : Except (List Violation) (Option (List Image)) :=
  match fields.lookup fname with
  | none => .ok none
  | some Val.vnull => .ok none
  | some (Val.varr xs) => (parseListAgg parseImage xs).map some
  | some v => .error [⟨loc, fname, "type_error", v⟩]

/-- The bounds the source declares on `Item.price`: `Field(gt=0)`. -/
def priceBounds : NumBounds := ⟨some 0, none, none, none⟩

/-- No numeric bounds (e.g. `Offer.price`, `Item.tax`). -/
def noBounds : NumBounds := ⟨none, none, none, none⟩

/-- Modelled from the spec: validate a JSON object against the `Item` schema,
with the source's declared constraints (`description` max_length 300,
`price` gt 0), aggregating violations across all fields. -/
def parseItem (v : Val) : Except (List Violation) Item :=
  match v with
  | Val.vobj fields =>
      match pz (pz (pz (parseOptStrField .body "description" (some 300) fields)
                       (parseOptStrField .body "type" none fields))
                   (pz (parseStrField .body "name" none fields)
                       (parseNumField .body "price" priceBounds fields)))
               (pz (pz (parseOptNumField .body "tax" noBounds fields)
                       (parseOptStrSetField .body "tags" fields))
                   (parseOptImagesField .body "images" fields)) with
      | .ok p => .ok ⟨p.1.1.1, p.1.1.2, p.1.2.1, p.1.2.2, p.2.1.1, p.2.1.2, p.2.2⟩
      | .error e => .error e
  | _ => .error [⟨.body, "item", "type_error", v⟩]

/-- Modelled from the spec: an `Item` list field (`Offer.items`). -/
def parseItemsField (loc : Loc) (fname : String)
    (fields : List (String × Val)) : Except (List Violation) (List Item) :=
  match fields.lookup fname with
  | none => .error [⟨loc, fname, "missing", Val.vnull⟩]
  | some (Val.varr xs) => parseListAgg parseItem xs
  | some v => .error [⟨loc, fname, "type_error", v⟩]

/-- Modelled from the spec: validate a JSON value against the `Offer` schema
(the Parameter Binder's body validation for `POST /offers/`, and the Response
Resolver's contract check for `GET /offers/{offer_id}`). -/
def parseOffer (v : Val) : Except (List Violation) Offer :=
  match v with
  | Val.vobj fields =>
      match pz (pz (parseStrField .body "name" none fields)
                   (parseOptStrField .body "description" none fields))
               (pz (parseNumField .body "price" noBounds fields)
                   (parseItemsField .body "items" fields)) with
      | .ok p => .ok ⟨p.1.1, p.1.2, p.2.1, p.2.2⟩
      | .error e => .error e
  | _ => .error [⟨.body, "offer", "type_error", v⟩]

/-! ### `GET /items/{item_id}` — `read_item` -/

/-- The bounds declared on the `item_id` path parameter:
`Path(ge=0, lt=1e7)`, i.e. the interval `[0, 10000000)`. -/
def itemIdBounds : NumBounds := ⟨none, some 0, some 10000000, none⟩

/-- The bounds declared on the `size` query parameter: `Query(gt=0, lt=10.5)`. -/
def sizeBounds : NumBounds := ⟨some 0, none, some (21 / 2 : ℚ), none⟩

/-- The bounds declared on the `importance` body parameter: `Body(ge=0)`. -/
def importanceBounds : NumBounds := ⟨none, some 0, none, none⟩

/-- The coerced raw values of one `GET /items/{item_id}` request, before
constraint validation: path `item_id`, query `q` (optional list) and `size`,
body `importance`. -/
structure ReadItemRaw where
  item_id : Int
  q : Option (List String)
  size : ℚ
  importance : Int

/-- The TypedInstance `read_item`'s binder produces on success. -/
structure ReadItemBound where
  item_id : Int
  q : Option (List String)
  size : ℚ
  importance : Int
deriving DecidableEq, Repr

/-- Constraint violations of the `item_id` path parameter. -/
def itemIdViolations (v : Int) : List Violation :=
  checkNum .path "item_id" itemIdBounds (v : ℚ)

/-- Constraint violations of the `q` query parameter
(`Query(min_length=3, max_length=20)` on the list, absent value allowed). -/
def qViolations : Option (List String) → List Violation
  | none => []
  | some xs => checkLen .query "q" (some 3) (some 20) xs.length

/-- Constraint violations of the `size` query parameter. -/
def sizeViolations (v : ℚ) : List Violation :=
  checkNum .query "size" sizeBounds v

/-- Constraint violations of the `importance` body parameter. -/
def importanceViolations (v : Int) : List Violation :=
  checkNum .body "importance" importanceBounds (v : ℚ)

/-- Modelled from the spec: the Parameter Binder for `read_item` — collect
every declared parameter's violations in declaration order; if any are
present, fail with the aggregate and produce no TypedInstance (spec §4.2). -/
def bindReadItem (r : ReadItemRaw) : Except (List Violation) ReadItemBound :=
  match itemIdViolations r.item_id ++ qViolations r.q
      ++ sizeViolations r.size ++ importanceViolations r.importance with
  | [] => .ok ⟨r.item_id, r.q, r.size, r.importance⟩
  | vs => .error vs

/-- The `read_item` handler body: ignores the bound values beyond printing
them and returns the fixed two-item list. -/
def read_item (_b : ReadItemBound) : List Item :=
  [⟨none, none, "Portal Gun", 42, none, none, none⟩,
   ⟨none, none, "Plumbus", 32, none, none, none⟩]

/-- The binder→handler pipeline of `GET /items/{item_id}`: the handler runs
only when binding succeeded. -/
def readItemRoute (r : ReadItemRaw) : Except (List Violation) (List Item) :=
  (bindReadItem r).map read_item

/-! ### `GET /travel_items/{item_id}` — tagged-union response -/

/-- A record of the `travel_items` in-handler store: the raw dict values. -/
structure TravelRecord where
  description : Option String
  type : Option String
  size : Option Int
deriving DecidableEq, Repr

/-- The store literal inside the `travel_items` handler. -/
def travel_items : List (String × TravelRecord) :=
  [("item1", ⟨some "All my friends drive a low rider", some "car", none⟩),
   ("item2", ⟨some "Music is my aeroplane, it\x27s my aeroplane", some "plane", some 5⟩)]

/-- The `travel_items` handler: `return items[item_id]` — unguarded dict
indexing raises `KeyError` when the key is absent. -/
def read_item_travel (item_id : String) : Except PyError TravelRecord :=
  match travel_items.lookup item_id with
  | some rec => .ok rec
  | none => .error (.keyError item_id)

/-- Modelled from the spec: tagged-union resolution against
`Union[PlaneItem, CarItem]` — inspect the returned data's `type`
discriminator, serialize through the matching variant schema (`CarItem`:
description, type; `PlaneItem`: description, type, size); no match is a
server-side contract violation (spec §4.3). -/
def resolveTravel (rec : TravelRecord) : Except Unit (List (String × Val)) :=
  match rec.type with
  | some "car" => .ok [("description", optStrV rec.description), ("type", Val.vstr "car")]
  | some "plane" =>
      match rec.size with
      | some n =>
          .ok [("description", optStrV rec.description), ("type", Val.vstr "plane"),
               ("size", Val.vint n)]
      | none => .error ()
  | _ => .error ()

/-- The full `GET /travel_items/{item_id}` pipeline: handler, then resolver
on success, exception mapper on a raised error. -/
def travelRoute (item_id : String) : ResponseOut :=
  match read_item_travel item_id with
  | .error e => mapException e
  | .ok rec =>
      match resolveTravel rec with
      | .ok out => ⟨200, [], Val.vobj out⟩
      | .error _ => ⟨500, [], Val.vobj [("detail", Val.vstr "Internal Server Error")]⟩

/-! ### `POST /user/` — `create_user` -/

/-- The `create_user` handler: `return user`. -/
def create_user (u : UserIn) : UserIn := u

/-- The fields of a `UserIn` handler result, as named wire fields. -/
def userInFields (u : UserIn) : List (String × Val) :=
  [("username", Val.vstr u.username), ("full_name", optStrV u.full_name),
   ("password", Val.vstr u.password)]

/-- The field names of the `BaseUser` response schema. -/
def baseUserSchemaFields : List String := ["username", "full_name"]

/-- Modelled from the spec: single-Schema response projection — keep exactly
the schema's declared fields, dropping unknown extra fields on the handler
result (spec §4.3). -/
def projectSchema (schema : List String) (fields : List (String × Val)) :
    List (String × Val) :=
  fields.filter fun p => schema.contains p.1

/-- The `POST /user/` pipeline: handler result projected onto `BaseUser`. -/
def createUserRoute (u : UserIn) : List (String × Val) :=
  projectSchema baseUserSchemaFields (userInFields (create_user u))

/-! ### `GET /offers/{offer_id}` and `POST /offers/` -/

/-- The store literal inside `read_offer`: `offers = {"foo": "The Foo Wrestlers"}`. -/
def offers : List (String × String) :=
  [("foo", "The Foo Wrestlers")]

/-- The `read_offer` handler: 404 `HTTPException` with the `X-Error` header
when the key is absent, otherwise the stored plain string. -/
def read_offer (offer_id : String) : Except PyError String :=
  match offers.lookup offer_id with
  | none =>
      .error (.http 404 "Offer not found" [("X-Error", "There goes my error")])
  | some v => .ok v

/-- The full `GET /offers/{offer_id}` pipeline: handler, then the Response
Resolver validates the result against the declared `Offer` response model; a
result matching it in no way is a server-side contract violation (500). -/
def readOfferRoute (offer_id : String) : ResponseOut :=
  match read_offer offer_id with
  | .error e => mapException e
  | .ok v =>
      match parseOffer (Val.vstr v) with
      | .ok o => ⟨200, [], serializeOffer o⟩
      | .error _ => ⟨500, [], Val.vobj [("detail", Val.vstr "Internal Server Error")]⟩

/-- The `create_offer` handler: `return offer`. -/
def create_offer (o : Offer) : Offer := o

/-- The `POST /offers/` pipeline: bind the body against the `Offer` schema,
run the handler, serialize the result against the same `Offer` schema. -/
def createOfferRoute (body : Val) : Except (List Violation) Val :=
  (parseOffer body).map fun o => serializeOffer (create_offer o)

/-! ### `POST /login/` -/

/-- The `login` handler: returns only the username. -/
def login (username : String) (_password : String) : List (String × Val) :=
  [("username", Val.vstr username)]

/-- Modelled from the spec: the form binder for `POST /login/` — `username`
is read under its wireAlias `user-name`, `password` under its own name; a
missing required field is a violation, aggregated across both (spec §4.2). -/
def bindLogin (form : List (String × String)) : Except (List Violation) (String × String) :=
  match form.lookup "user-name", form.lookup "password" with
  | some u, some p => .ok (u, p)
  | some _, none => .error [⟨.form, "password", "missing", Val.vnull⟩]
  | none, some _ => .error [⟨.form, "username", "missing", Val.vnull⟩]
  | none, none =>
      .error [⟨.form, "username", "missing", Val.vnull⟩,
              ⟨.form, "password", "missing", Val.vnull⟩]

/-- The `POST /login/` pipeline. -/
def loginRoute (form : List (String × String)) :
    Except (List Violation) (List (String × Val)) :=
  (bindLogin form).map fun p => login p.1 p.2

/-! ### `POST /send-notification/{email}` and the Background Task Queue -/

/-- `write_log`: appends one message to the log file. The log is modelled
as the string contents of `log.txt`. -/
def write_log (log : String) (message : String) : String :=
  log ++ message

/-- The `get_query` dependency: when `q` is truthy (present and non-empty),
enqueue one `write_log` task for the query message; return `q` either way.
The queue is the request's FIFO list of pending log messages. -/
def get_query (tasks : List String) (q : Option String) : List String × Option String :=
  match q with
  | none => (tasks, none)
  | some s =>
      if s = "" then (tasks, some s)
      else (tasks ++ ["found query: " ++ s ++ "\n"], some s)

/-- The `send_notification` handler with its `get_query` dependency: the
dependency runs first against the request's empty task queue, then the
handler enqueues one more `write_log` task for the email message and returns
the response body `{"message": "Message sent"}`. -/
def send_notification (email : String) (q : Option String) :
    List String × List (String × Val) :=
  match get_query [] q with
  | (tasks, _qv) =>
      (tasks ++ ["message to " ++ email ++ "\n"],
       [("message", Val.vstr "Message sent")])

/-- Modelled from the spec: drain the Background Task Queue strictly after
the response is returned, in enqueue order (spec §4.6); each task appends
its log line once. -/
def drainTasks (log : String) (tasks : List String) : String :=
  tasks.foldl write_log log

/-! ### Validity of a TypedInstance (constraints its Schema declares) -/

/-- An `Item` TypedInstance satisfying its declared constraints:
`price > 0`, `description` at most 300 characters; `tags` came from a set,
so it has no duplicates. -/
def validItem (it : Item) : Bool :=
  decide ((0 : ℚ) < it.price
    ∧ (∀ d ∈ it.description.toList, d.length ≤ 300)
    ∧ ∀ ts ∈ it.tags.toList, ts.Nodup)

/-- An `Offer` TypedInstance satisfying its declared constraints: every
nested item is valid (`Offer`'s own fields carry no constraints). -/
def validOffer (o : Offer) : Bool :=
  o.items.all validItem

/-- The field names of a response's JSON object body. -/
def bodyKeys (r : ResponseOut) : List String :=
  match r.body with
  | Val.vobj fs => fs.map Prod.fst
  | _ => []

/-- The field names listed in a binding result's ValidationFailure
(empty when binding succeeded). -/
def failureFields {α : Type} : Except (List Violation) α → List String
  | .error vs => vs.map Violation.field
  | .ok _ => []

/-! ## Theorems -/

/-- C10: for every pair of `POST /login/` requests with the same `user-name`
form field and any two password form values, the produced responses are
identical; the response body contains only the username and the password
never appears in it. -/
theorem login_response_independent_of_password (u p1 p2 : String) :
    loginRoute [("user-name", u), ("password", p1)]
      = loginRoute [("user-name", u), ("password", p2)]
    ∧ loginRoute [("user-name", u), ("password", p1)]
      = .ok [("username", Val.vstr u)]
    ∧ (login u p1).lookup "password" = none :=
  ⟨rfl, rfl, rfl⟩

/-- C5: for every valid `UserIn` body, the `POST /user/` response carries
exactly the `BaseUser` fields — `username` and `full_name` are echoed — and
the `password` field, absent from the response schema, is dropped. -/
theorem create_user_response_drops_password (u : UserIn) :
    createUserRoute u
      = [("username", Val.vstr u.username), ("full_name", optStrV u.full_name)]
    ∧ (createUserRoute u).lookup "password" = none :=
  ⟨rfl, rfl⟩

/-- C4: every `GET /offers/{offer_id}` request whose `offer_id` is absent
from the offer store short-circuits with the 404 `HTTPException` carrying the
`X-Error` header; the mapped response has status 404 with that header, and no
`Offer` body is produced. -/
theorem read_offer_not_found (offer_id : String) (h : offer_id ≠ "foo") :
    read_offer offer_id
      = .error (.http 404 "Offer not found" [("X-Error", "There goes my error")])
    ∧ (readOfferRoute offer_id).status = 404
    ∧ ("X-Error", "There goes my error") ∈ (readOfferRoute offer_id).headers := by
  have hb : (offer_id == "foo") = false := beq_eq_false_iff_ne.mpr h
  have hl : offers.lookup offer_id = none := by
    simp [offers, List.lookup, hb]
  refine ⟨?_, ?_, ?_⟩
  · simp [read_offer, hl]
  · simp [readOfferRoute, read_offer, hl, mapException]
  · simp [readOfferRoute, read_offer, hl, mapException]

/-- Witness for C4 at the concrete absent key `"bar"`. -/
theorem read_offer_not_found_witness :
    read_offer "bar"
      = .error (.http 404 "Offer not found" [("X-Error", "There goes my error")])
    ∧ (readOfferRoute "bar").status = 404
    ∧ ("X-Error", "There goes my error") ∈ (readOfferRoute "bar").headers :=
  read_offer_not_found "bar" (by decide)

/-- C3 counterexample: a concrete `POST /send-notification/{email}` request
with a present query value enqueues two background tasks, not exactly one —
the `get_query` dependency enqueues one for the query and the handler
enqueues another for the email. -/
theorem send_notification_not_single_task :
    (send_notification "alice@example.com" (some "hello")).1.length = 2
    ∧ decide ((send_notification "alice@example.com" (some "hello")).1.length = 1)
      = false :=
  ⟨rfl, rfl⟩

/-- C3 amended: with a truthy query value present, exactly two background
tasks are enqueued — the `get_query` dependency's query log line first, then
the handler's email log line — and draining the queue after the response
appends each side effect exactly once, in enqueue order. -/
theorem send_notification_two_tasks (email q log : String) (h : q ≠ "") :
    (send_notification email (some q)).1
      = ["found query: " ++ q ++ "\n", "message to " ++ email ++ "\n"]
    ∧ drainTasks log (send_notification email (some q)).1
      = log ++ ("found query: " ++ q ++ "\n") ++ ("message to " ++ email ++ "\n") := by
  constructor
  · simp [send_notification, get_query, h]
  · simp [send_notification, get_query, h, drainTasks, write_log]

/-- Witness for the amended C3 at a concrete email and query. -/
theorem send_notification_two_tasks_witness :
    (send_notification "alice@example.com" (some "hello")).1
      = ["found query: " ++ "hello" ++ "\n", "message to " ++ "alice@example.com" ++ "\n"]
    ∧ drainTasks "" (send_notification "alice@example.com" (some "hello")).1
      = "" ++ ("found query: " ++ "hello" ++ "\n") ++ ("message to " ++ "alice@example.com" ++ "\n") :=
  send_notification_two_tasks "alice@example.com" "hello" "" (by decide)

/-- C2: serializing the stored `"car"` record of `GET /travel_items/{item_id}`
goes through the `CarItem` variant and omits the plane-only `size` field;
the stored `"plane"` record's response includes `size`; and whenever the
resolver succeeds, the emitted variant tag is exactly the returned data's own
discriminator value, independent of any client input. -/
theorem travel_tagged_union_resolution :
    (bodyKeys (travelRoute "item1") = ["description", "type"]
      ∧ (travelRoute "item1").status = 200)
    ∧ (bodyKeys (travelRoute "item2") = ["description", "type", "size"]
      ∧ (travelRoute "item2").status = 200)
    ∧ (∀ rec out, resolveTravel rec = .ok out →
        out.lookup "type" = rec.type.map Val.vstr) := by
  refine ⟨⟨rfl, rfl⟩, ⟨rfl, rfl⟩, ?_⟩
  intro rec out h
  unfold resolveTravel at h
  split at h
  · cases h
    simp_all [List.lookup]
  · split at h
    · cases h
      simp_all [List.lookup]
    · exact Except.noConfusion h
  · exact Except.noConfusion h

/-- Witness for C2: the resolver applied to the stored car record emits the
record's own discriminator. -/
theorem travel_tagged_union_resolution_witness :
    List.lookup "type"
        [("description", optStrV (some "All my friends drive a low rider")),
         ("type", Val.vstr "car")]
      = Option.map Val.vstr (some "car") :=
  travel_tagged_union_resolution.2.2
    ⟨some "All my friends drive a low rider", some "car", none⟩ _ rfl

/-- C9: the `travel_items` lookup succeeds exactly for `"item1"` and
`"item2"`; any other `item_id` raises a `KeyError` from the unguarded dict
indexing, an error kind with no registered mapper, so the request surfaces as
a generic 500 server error and not as a 404. -/
theorem travel_items_keyerror (item_id : String) :
    ((read_item_travel item_id).isOk = true
      ↔ (item_id = "item1" ∨ item_id = "item2"))
    ∧ (¬(item_id = "item1" ∨ item_id = "item2") →
        read_item_travel item_id = .error (.keyError item_id)
        ∧ (travelRoute item_id).status = 500) := by
  by_cases h1 : item_id = "item1"
  · subst h1
    exact ⟨by decide, fun hc => absurd (Or.inl rfl) hc⟩
  · by_cases h2 : item_id = "item2"
    · subst h2
      exact ⟨by decide, fun hc => absurd (Or.inr rfl) hc⟩
    · have hb1 : (item_id == "item1") = false := beq_eq_false_iff_ne.mpr h1
      have hb2 : (item_id == "item2") = false := beq_eq_false_iff_ne.mpr h2
      have hl : travel_items.lookup item_id = none := by
        simp [travel_items, List.lookup, hb1, hb2]
      have he : read_item_travel item_id = .error (.keyError item_id) := by
        simp [read_item_travel, hl]
      refine ⟨?_, fun _ => ⟨he, ?_⟩⟩
      · rw [he]
        simp [Except.isOk, Except.toBool, h1, h2]
      · simp [travelRoute, he, mapException]

/-- Witness for C9 at the concrete absent key `"item3"`. -/
theorem travel_items_keyerror_witness :
    read_item_travel "item3" = .error (.keyError "item3")
    ∧ (travelRoute "item3").status = 500 :=
  (travel_items_keyerror "item3").2 (by decide)

/-- C8: the offer store holds only the key `"foo"`, whose value is the plain
string `"The Foo Wrestlers"`; that string fails validation against the
declared `Offer` response model, so every `GET /offers/{offer_id}` request
ends in either the 404 branch or the 500 contract-violation branch — never in
a successful `Offer`-shaped body. -/
theorem read_offer_never_offer_shaped :
    offers = [("foo", "The Foo Wrestlers")]
    ∧ (parseOffer (Val.vstr "The Foo Wrestlers")).isOk = false
    ∧ (∀ offer_id, (readOfferRoute offer_id).status = 404
        ∨ (readOfferRoute offer_id).status = 500) := by
  refine ⟨rfl, rfl, ?_⟩
  intro offer_id
  by_cases h : offer_id = "foo"
  · subst h
    exact Or.inr rfl
  · have hb : (offer_id == "foo") = false := beq_eq_false_iff_ne.mpr h
    have hl : offers.lookup offer_id = none := by
      simp [offers, List.lookup, hb]
    exact Or.inl (by simp [readOfferRoute, read_offer, hl, mapException])

/-- C6: for the `size` query parameter declared `Query(gt=0, lt=10.5)`, the
value 0 produces exactly the `gt` violation, any value strictly above 0
passes the `gt` bound, and 10.5 itself is rejected by the strict `lt` bound;
the same `gt=0` rule holds for `Item.price`. -/
theorem strict_numeric_bounds (v : ℚ) :
    sizeViolations 0 = [⟨.query, "size", "gt", Val.vrat 0⟩]
    ∧ ((0 : ℚ) < v → checkGt .query "size" (some 0) v = [])
    ∧ sizeViolations (21 / 2) = [⟨.query, "size", "lt", Val.vrat (21 / 2)⟩]
    ∧ checkNum .body "price" priceBounds 0 = [⟨.body, "price", "gt", Val.vrat 0⟩]
    ∧ ((0 : ℚ) < v → checkNum .body "price" priceBounds v = []) := by
  refine ⟨?_, fun h => ?_, ?_, ?_, fun h => ?_⟩
  · norm_num [sizeViolations, sizeBounds, checkNum, checkGt, checkGe, checkLt, checkLe]
  · simp [checkGt, h]
  · norm_num [sizeViolations, sizeBounds, checkNum, checkGt, checkGe, checkLt, checkLe]
  · norm_num [priceBounds, checkNum, checkGt, checkGe, checkLt, checkLe]
  · simp [priceBounds, checkNum, checkGt, checkGe, checkLt, checkLe, h]

/-- Witness for C6 at the concrete value 1/10, just above 0. -/
theorem strict_numeric_bounds_witness :
    checkGt .query "size" (some 0) (1 / 10) = []
    ∧ checkNum .body "price" priceBounds (1 / 10) = [] :=
  ⟨(strict_numeric_bounds (1 / 10)).2.1 (by norm_num),
   (strict_numeric_bounds (1 / 10)).2.2.2.2 (by norm_num)⟩

/-! ### Round-trip lemmas (serialize then re-parse) -/

/-- Re-parsing a serialized `Image` recovers it. -/
theorem parseImage_serializeImage (i : Image) :
    parseImage (serializeImage i) = .ok i := rfl

/-- When every element of a list re-parses to itself, so does the list. -/
theorem parseListAgg_map_ok {α : Type} (f : Val → Except (List Violation) α)
    (g : α → Val) (bs : List α) (h : ∀ b ∈ bs, f (g b) = .ok b) :
    parseListAgg f (bs.map g) = .ok bs := by
  induction bs with
  | nil => rfl
  | cons b rest ih =>
      have hb := h b (List.mem_cons_self b rest)
      have hrest := ih fun x hx => h x (List.mem_cons_of_mem b hx)
      simp [parseListAgg, hb, hrest, pz, Except.map]

/-- An optional string field whose serialized form is present re-parses to
the original value when the length constraint is satisfied. -/
theorem parseOptStrField_roundtrip (loc : Loc) (fname : String) (maxL : Option Nat)
    (fields : List (String × Val)) (v : Option String)
    (hl : fields.lookup fname = some (optStrV v))
    (hlen : ∀ d, v = some d → checkLen loc fname none maxL d.length = []) :
    parseOptStrField loc fname maxL fields = .ok v := by
  cases v with
  | none => simp [parseOptStrField, hl, optStrV]
  | some d => simp [parseOptStrField, hl, optStrV, hlen d rfl]

/-- A numeric field whose serialized form is present re-parses to the
original value when its bounds are satisfied. -/
theorem parseNumField_roundtrip (loc : Loc) (fname : String) (b : NumBounds)
    (fields : List (String × Val)) (q : ℚ)
    (hl : fields.lookup fname = some (Val.vrat q))
    (hc : checkNum loc fname b q = []) :
    parseNumField loc fname b fields = .ok q := by
  simp [parseNumField, hl, hc]

/-- An unconstrained optional numeric field re-parses to the original value. -/
theorem parseOptNumField_roundtrip (loc : Loc) (fname : String)
    (fields : List (String × Val)) (v : Option ℚ)
    (hl : fields.lookup fname = some (optRatV v)) :
    parseOptNumField loc fname noBounds fields = .ok v := by
  cases v with
  | none => simp [parseOptNumField, hl, optRatV]
  | some q =>
      simp [parseOptNumField, hl, optRatV, checkNum, noBounds,
        checkGt, checkGe, checkLt, checkLe]

/-- A duplicate-free string set field re-parses to the original value. -/
theorem parseOptStrSetField_roundtrip (loc : Loc) (fname : String)
    (fields : List (String × Val)) (v : Option (List String))
    (hl : fields.lookup fname = some (tagsV v))
    (hnd : ∀ ts, v = some ts → ts.Nodup) :
    parseOptStrSetField loc fname fields = .ok v := by
  cases v with
  | none => simp [parseOptStrSetField, hl, tagsV]
  | some ts =>
      have hagg : parseListAgg (parseStrElem loc fname) (ts.map Val.vstr) = .ok ts :=
        parseListAgg_map_ok _ _ ts fun _ _ => rfl
      have hd : ts.dedup = ts := List.dedup_eq_self.mpr (hnd ts rfl)
      simp [parseOptStrSetField, hl, tagsV, hagg, hd, Except.map]

/-- An optional image list field re-parses to the original value. -/
theorem parseOptImagesField_roundtrip (loc : Loc) (fname : String)
    (fields : List (String × Val)) (v : Option (List Image))
    (hl : fields.lookup fname = some (imagesV v)) :
    parseOptImagesField loc fname fields = .ok v := by
  cases v with
  | none => simp [parseOptImagesField, hl, imagesV]
  | some xs =>
      have hagg : parseListAgg parseImage (xs.map serializeImage) = .ok xs :=
        parseListAgg_map_ok _ _ xs fun i _ => parseImage_serializeImage i
      simp [parseOptImagesField, hl, imagesV, hagg, Except.map]

/-- Re-parsing a serialized valid `Item` against the `Item` schema recovers
it unchanged. -/
theorem parseItem_roundtrip (it : Item) (h : validItem it = true) :
    parseItem (serializeItem it) = .ok it := by
  obtain ⟨hpr, hdesc, htags⟩ := of_decide_eq_true h
  have h1 : parseOptStrField .body "description" (some 300) (itemFields it)
      = .ok it.description := by
    refine parseOptStrField_roundtrip _ _ _ _ _ rfl ?_
    intro d hdd
    rw [hdd] at hdesc
    have hlen : d.length ≤ 300 := hdesc d (by simp)
    simp [checkLen, hlen]
  have h2 : parseOptStrField .body "type" none (itemFields it) = .ok it.type :=
    parseOptStrField_roundtrip _ _ _ _ _ rfl fun _ _ => rfl
  have h3 : parseStrField .body "name" none (itemFields it) = .ok it.name := rfl
  have h4 : parseNumField .body "price" priceBounds (itemFields it) = .ok it.price := by
    refine parseNumField_roundtrip _ _ _ _ _ rfl ?_
    simp [checkNum, priceBounds, checkGt, checkGe, checkLt, checkLe, hpr]
  have h5 : parseOptNumField .body "tax" noBounds (itemFields it) = .ok it.tax :=
    parseOptNumField_roundtrip _ _ _ _ rfl
  have h6 : parseOptStrSetField .body "tags" (itemFields it) = .ok it.tags := by
    refine parseOptStrSetField_roundtrip _ _ _ _ rfl ?_
    intro ts hts
    rw [hts] at htags
    exact htags ts (by simp)
  have h7 : parseOptImagesField .body "images" (itemFields it) = .ok it.images :=
    parseOptImagesField_roundtrip _ _ _ _ rfl
  show parseItem (Val.vobj (itemFields it)) = .ok it
  simp only [parseItem]
  rw [h1, h2, h3, h4, h5, h6, h7]
  simp [pz]

/-- C7: serializing a valid `Offer` TypedInstance through the Response
Resolver and re-parsing the serialized form with the Parameter Binder against
the same `Offer` schema yields the same TypedInstance; consequently
`POST /offers/` echoes the serialized body unchanged. -/
theorem offer_roundtrip (o : Offer) (h : validOffer o = true) :
    parseOffer (serializeOffer o) = .ok o
    ∧ createOfferRoute (serializeOffer o) = .ok (serializeOffer o) := by
  have hall : ∀ it ∈ o.items, validItem it = true := by
    simpa [validOffer, List.all_eq_true] using h
  have hitems : ∀ it ∈ o.items, parseItem (serializeItem it) = .ok it :=
    fun it hit => parseItem_roundtrip it (hall it hit)
  have h1 : parseStrField .body "name" none (offerFields o) = .ok o.name := rfl
  have h2 : parseOptStrField .body "description" none (offerFields o) = .ok o.description :=
    parseOptStrField_roundtrip _ _ _ _ _ rfl fun _ _ => rfl
  have h3 : parseNumField .body "price" noBounds (offerFields o) = .ok o.price := by
    refine parseNumField_roundtrip _ _ _ _ _ rfl ?_
    simp [checkNum, noBounds, checkGt, checkGe, checkLt, checkLe]
  have h4 : parseItemsField .body "items" (offerFields o) = .ok o.items := by
    have hstep : parseItemsField .body "items" (offerFields o)
        = parseListAgg parseItem (o.items.map serializeItem) := rfl
    rw [hstep]
    exact parseListAgg_map_ok _ _ o.items hitems
  have hmain : parseOffer (serializeOffer o) = .ok o := by
    show parseOffer (Val.vobj (offerFields o)) = .ok o
    simp only [parseOffer]
    rw [h1, h2, h3, h4]
    simp [pz]
  exact ⟨hmain, by simp [createOfferRoute, hmain, create_offer, Except.map]⟩

/-- Witness for C7 at a concrete valid offer with one nested item. -/
theorem offer_roundtrip_witness :
    parseOffer (serializeOffer (Offer.mk "o1" none 10
        [Item.mk (some "A nice item") none "Portal Gun" 42 none
          (some ["a", "b"]) (some [Image.mk "http://img" "im"])]))
      = .ok (Offer.mk "o1" none 10
        [Item.mk (some "A nice item") none "Portal Gun" 42 none
          (some ["a", "b"]) (some [Image.mk "http://img" "im"])])
    ∧ createOfferRoute (serializeOffer (Offer.mk "o1" none 10
        [Item.mk (some "A nice item") none "Portal Gun" 42 none
          (some ["a", "b"]) (some [Image.mk "http://img" "im"])]))
      = .ok (serializeOffer (Offer.mk "o1" none 10
        [Item.mk (some "A nice item") none "Portal Gun" 42 none
          (some ["a", "b"]) (some [Image.mk "http://img" "im"])])) :=
  offer_roundtrip _ (by decide)

/-! ### Violation aggregation for `GET /items/{item_id}` -/

/-- An `item_id` outside `[0, 1e7)` contributes a violation naming `item_id`. -/
theorem exists_itemId_violation (v : Int) (h : ¬(0 ≤ v ∧ v < 10000000)) :
    ∃ w ∈ itemIdViolations v, w.field = "item_id" := by
  push_neg at h
  by_cases h0 : (0 : ℤ) ≤ v
  · have h7 : ¬((v : ℚ) < 10000000) := by
      have hv : (10000000 : ℤ) ≤ v := h h0
      exact not_lt.mpr (by exact_mod_cast hv)
    have h0q : (0 : ℚ) ≤ (v : ℚ) := by exact_mod_cast h0
    refine ⟨⟨.path, "item_id", "lt", Val.vrat (v : ℚ)⟩, ?_, rfl⟩
    simp [itemIdViolations, itemIdBounds, checkNum, checkGt, checkGe,
      checkLt, checkLe, h0q, h7]
  · have h0q : ¬((0 : ℚ) ≤ (v : ℚ)) := by
      intro hc
      exact h0 (by exact_mod_cast hc)
    refine ⟨⟨.path, "item_id", "ge", Val.vrat (v : ℚ)⟩, ?_, rfl⟩
    simp [itemIdViolations, itemIdBounds, checkNum, checkGt, checkGe,
      checkLt, checkLe, h0q]

/-- A `size` outside `(0, 10.5)` contributes a violation naming `size`. -/
theorem exists_size_violation (v : ℚ) (h : ¬((0 : ℚ) < v ∧ v < 21 / 2)) :
    ∃ w ∈ sizeViolations v, w.field = "size" := by
  push_neg at h
  by_cases h0 : (0 : ℚ) < v
  · have h7 : ¬(v < 21 / 2) := not_lt.mpr (h h0)
    refine ⟨⟨.query, "size", "lt", Val.vrat v⟩, ?_, rfl⟩
    simp [sizeViolations, sizeBounds, checkNum, checkGt, checkGe,
      checkLt, checkLe, h0, h7]
  · refine ⟨⟨.query, "size", "gt", Val.vrat v⟩, ?_, rfl⟩
    simp [sizeViolations, sizeBounds, checkNum, checkGt, checkGe,
      checkLt, checkLe, h0]

/-- A negative `importance` contributes a violation naming `importance`. -/
theorem exists_importance_violation (v : Int) (h : ¬(0 ≤ v)) :
    ∃ w ∈ importanceViolations v, w.field = "importance" := by
  have h0q : ¬((0 : ℚ) ≤ (v : ℚ)) := by
    intro hc
    exact h (by exact_mod_cast hc)
  refine ⟨⟨.body, "importance", "ge", Val.vrat (v : ℚ)⟩, ?_, rfl⟩
  simp [importanceViolations, importanceBounds, checkNum, checkGt, checkGe,
    checkLt, checkLe, h0q]

/-- C1: when the `item_id`, `size` and `importance` parameters of
`GET /items/{item_id}` all violate their declared constraints, binding fails
with one aggregated ValidationFailure listing a violation for every one of
those fields, the handler is never invoked, and binding yields no (partial)
TypedInstance. -/
theorem binding_aggregates_all_violations (r : ReadItemRaw)
    (h1 : ¬(0 ≤ r.item_id ∧ r.item_id < 10000000))
    (h2 : ¬((0 : ℚ) < r.size ∧ r.size < 21 / 2))
    (h3 : ¬(0 ≤ r.importance)) :
    (bindReadItem r).isOk = false
    ∧ "item_id" ∈ failureFields (bindReadItem r)
    ∧ "size" ∈ failureFields (bindReadItem r)
    ∧ "importance" ∈ failureFields (bindReadItem r)
    ∧ (readItemRoute r).isOk = false
    ∧ failureFields (readItemRoute r) = failureFields (bindReadItem r) := by
  obtain ⟨w1, hw1, hf1⟩ := exists_itemId_violation r.item_id h1
  obtain ⟨w2, hw2, hf2⟩ := exists_size_violation r.size h2
  obtain ⟨w3, hw3, hf3⟩ := exists_importance_violation r.importance h3
  have hmem1 : w1 ∈ itemIdViolations r.item_id ++ qViolations r.q
      ++ sizeViolations r.size ++ importanceViolations r.importance := by
    simp only [List.mem_append]
    exact Or.inl (Or.inl (Or.inl hw1))
  have hmem2 : w2 ∈ itemIdViolations r.item_id ++ qViolations r.q
      ++ sizeViolations r.size ++ importanceViolations r.importance := by
    simp only [List.mem_append]
    exact Or.inl (Or.inr hw2)
  have hmem3 : w3 ∈ itemIdViolations r.item_id ++ qViolations r.q
      ++ sizeViolations r.size ++ importanceViolations r.importance := by
    simp only [List.mem_append]
    exact Or.inr hw3
  cases hL : itemIdViolations r.item_id ++ qViolations r.q
      ++ sizeViolations r.size ++ importanceViolations r.importance with
  | nil =>
      rw [hL] at hmem1
      exact absurd hmem1 (List.not_mem_nil w1)
  | cons a as =>
      rw [hL] at hmem1 hmem2 hmem3
      have hbind : bindReadItem r = .error (a :: as) := by
        unfold bindReadItem
        rw [hL]
      have hroute : readItemRoute r = .error (a :: as) := by
        simp [readItemRoute, hbind, Except.map]
      refine ⟨?_, ?_, ?_, ?_, ?_, ?_⟩
      · simp [hbind, Except.isOk, Except.toBool]
      · rw [hbind]
        exact List.mem_map.mpr ⟨w1, hmem1, hf1⟩
      · rw [hbind]
        exact List.mem_map.mpr ⟨w2, hmem2, hf2⟩
      · rw [hbind]
        exact List.mem_map.mpr ⟨w3, hmem3, hf3⟩
      · simp [hroute, Except.isOk, Except.toBool]
      · rw [hbind, hroute]
        rfl

/-- Witness for C1: the concrete request with `item_id = -1`, `size = 0`,
`importance = -1` (and a well-formed `q`) fails with violations for all
three fields. -/
theorem binding_aggregates_all_violations_witness :
    (bindReadItem ⟨-1, some ["aaa", "bbb", "ccc"], 0, -1⟩).isOk = false
    ∧ "item_id" ∈ failureFields (bindReadItem ⟨-1, some ["aaa", "bbb", "ccc"], 0, -1⟩)
    ∧ "size" ∈ failureFields (bindReadItem ⟨-1, some ["aaa", "bbb", "ccc"], 0, -1⟩)
    ∧ "importance" ∈ failureFields (bindReadItem ⟨-1, some ["aaa", "bbb", "ccc"], 0, -1⟩)
    ∧ (readItemRoute ⟨-1, some ["aaa", "bbb", "ccc"], 0, -1⟩).isOk = false
    ∧ failureFields (readItemRoute ⟨-1, some ["aaa", "bbb", "ccc"], 0, -1⟩)
      = failureFields (bindReadItem ⟨-1, some ["aaa", "bbb", "ccc"], 0, -1⟩) :=
  binding_aggregates_all_violations ⟨-1, some ["aaa", "bbb", "ccc"], 0, -1⟩
    (by decide) (by norm_num) (by decide)

end FirstShot
